import Mathlib

/- Shallow embedding of the k8s-pod-rightsizer recommendation engine
   (pkg/analyzer/engine.go) and of the reconciliation controller
   (internal/controller/podrightsizing_controller.go).

   Modelling conventions:
   * Go `float64` arithmetic is modelled exactly over `ℚ`.
   * Go's `int64(x)` / `int(x)` float-to-integer conversion truncates toward
     zero; it is modelled by `trunc` below.
   * `math.Sqrt` is the only operation with no exact rational counterpart; it
     is threaded through as an abstract parameter `sqrt : ℚ → ℚ`.  Every
     theorem below holds for an arbitrary `sqrt`, hence in particular for the
     real square root.
   * `resource.Quantity` values: a CPU quantity built by
     `resource.NewMilliQuantity(int64(x*1000), DecimalSI)` is modelled by the
     integer number of milli-cores `trunc (x * 1000)`; a memory quantity built
     by `resource.NewQuantity(int64(x), BinarySI)` by the integer number of
     bytes `trunc x`.  `Quantity.AsApproximateFloat64` then returns
     millis/1000 (CPU) resp. bytes (memory), which is exact over `ℚ`.
   * `sort.Float64s` (ascending in-place sort) is modelled by
     `List.insertionSort (· ≤ ·)`.
   * Go errors are modelled by `Except String`. -/

set_option linter.unusedVariables false

namespace Rightsizer

/-- Go integer conversion of a float (`int64(x)`, `int(x)`): truncation
toward zero. -/
def trunc (q : ℚ) : ℤ := if q < 0 then ⌈q⌉ else ⌊q⌋

/-! ## Recommendation engine (pkg/analyzer/engine.go) -/

/-- Mirrors `analyzer.RecommendationEngine`. -/
structure RecommendationEngine where
  defaultSafetyMargin : ℤ
  defaultConfidenceThreshold : ℤ
  minDataPoints : ℤ
  cpuRequestMultiplier : ℚ
  memoryRequestMultiplier : ℚ

/-- Mirrors `analyzer.NewRecommendationEngine`. -/
def newRecommendationEngine : RecommendationEngine where
  defaultSafetyMargin := 20
  defaultConfidenceThreshold := 70
  minDataPoints := 10
  cpuRequestMultiplier := 8 / 10
  memoryRequestMultiplier := 9 / 10

/-- Mirrors `v1alpha1.ResourceThresholds` as consumed by the engine: the engine
reads the quantity clamps through `AsApproximateFloat64`, so the clamps are
modelled as optional rationals (`nil` pointer ↦ `none`).  Fields not read by
the engine (`MinChangeThreshold`) are omitted. -/
structure ResourceThresholds where
  cpuUtilizationPercentile : ℤ
  memoryUtilizationPercentile : ℤ
  minCPU : Option ℚ
  maxCPU : Option ℚ
  minMemory : Option ℚ
  maxMemory : Option ℚ
  safetyMargin : ℤ

/-- Mirrors `RecommendationEngine.calculatePercentile`. -/
def calculatePercentile (sortedValues : List ℚ) (percentile : ℚ) : ℚ :=
  if sortedValues.length = 0 then 0
  else if percentile ≤ 0 then sortedValues.getD 0 0
  else if 100 ≤ percentile then sortedValues.getD (sortedValues.length - 1) 0
  else
    let index : ℚ := percentile / 100 * ((sortedValues.length : ℚ) - 1)
    let lower : ℤ := ⌊index⌋
    let upper : ℤ := ⌈index⌉
    if lower = upper then sortedValues.getD lower.toNat 0
    else
      let weight : ℚ := index - (lower : ℚ)
      sortedValues.getD lower.toNat 0 * (1 - weight) +
        sortedValues.getD upper.toNat 0 * weight

/-- Mirrors `RecommendationEngine.calculateMean` (left-to-right summation). -/
def calculateMean (values : List ℚ) : ℚ :=
  if values.length = 0 then 0
  else values.foldl (· + ·) 0 / (values.length : ℚ)

/-- Mirrors `RecommendationEngine.calculateStandardDeviation`; `math.Sqrt` is
the abstract parameter `sqrt`. -/
def calculateStandardDeviation (sqrt : ℚ → ℚ) (values : List ℚ) (mean : ℚ) : ℚ :=
  if values.length < 2 then 0
  else
    let sumSquaredDiff := values.foldl (fun acc v => acc + (v - mean) * (v - mean)) 0
    sqrt (sumSquaredDiff / ((values.length : ℚ) - 1))

/-- Mirrors `RecommendationEngine.calculateConfidence` (Go writes the literals
0.5, 0.3, 0.1, 0.2 and 100; the second argument is unused in the source as
well). -/
def calculateConfidence (r : RecommendationEngine) (sqrt : ℚ → ℚ)
    (values : List ℚ) (percentileValue : ℚ) : ℤ :=
  if values.length < 2 then 50
  else
    let mean := calculateMean values
    let stdDev := calculateStandardDeviation sqrt values mean
    let cv : ℚ := if 0 < mean then stdDev / mean else 0
    let confidence : ℤ :=
      if 1 / 2 < cv then 30 + trunc (20 * (1 - min (cv - 1 / 2) (1 / 2) / (1 / 2)))
      else if 3 / 10 < cv then 70 + trunc (25 * (1 - (cv - 3 / 10) / (2 / 10)))
      else if 1 / 10 < cv then 95 + trunc (5 * (1 - (cv - 1 / 10) / (2 / 10)))
      else 100
    let dataPointBoost : ℚ := min ((values.length : ℚ) / 100) (1 / 10)
    trunc (min ((confidence : ℚ) * (1 + dataPointBoost)) 100)

/-- Mirrors `analyzer.ResourceRecommendation`.  The `Request` field is never
set by the source (always `nil`), so it is omitted; `Limit` is always set on
the success path and is stored as an integer quantity (milli-cores for CPU,
bytes for memory). -/
structure ResourceRecommendation where
  limit : ℤ
  percentile : ℚ
  confidence : ℤ
  dataPoints : ℕ
  reason : String
deriving DecidableEq

/-- Mirrors `RecommendationEngine.analyzeCPUUsage`. -/
def analyzeCPUUsage (r : RecommendationEngine) (sqrt : ℚ → ℚ)
    (cpuHistory : List ℚ) (thresholds : ResourceThresholds) :
    Except String (ResourceRecommendation × ℤ) :=
  if (cpuHistory.length : ℤ) < r.minDataPoints then
    .error ("insufficient CPU data points: " ++ toString cpuHistory.length ++
      " < " ++ toString r.minDataPoints)
  else
    let values := List.insertionSort (· ≤ ·) cpuHistory
    let percentile : ℤ :=
      if 0 < thresholds.cpuUtilizationPercentile then thresholds.cpuUtilizationPercentile
      else 95
    let percentileValue := calculatePercentile values (percentile : ℚ)
    let safetyMargin : ℤ :=
      if 0 < thresholds.safetyMargin then thresholds.safetyMargin
      else r.defaultSafetyMargin
    let recommendedLimit0 := percentileValue * (1 + (safetyMargin : ℚ) / 100)
    let recommendedLimit1 :=
      match thresholds.minCPU with
      | some minCPU => if recommendedLimit0 < minCPU then minCPU else recommendedLimit0
      | none => recommendedLimit0
    let recommendedLimit :=
      match thresholds.maxCPU with
      | some maxCPU => if maxCPU < recommendedLimit1 then maxCPU else recommendedLimit1
      | none => recommendedLimit1
    let confidence := calculateConfidence r sqrt values percentileValue
    .ok
      ({ limit := trunc (recommendedLimit * 1000)
         percentile := percentileValue
         confidence := confidence
         dataPoints := cpuHistory.length
         reason := "Based on " ++ toString percentile ++ "th percentile of " ++
           toString cpuHistory.length ++ " data points" }, confidence)

/-- Mirrors `RecommendationEngine.analyzeMemoryUsage`. -/
def analyzeMemoryUsage (r : RecommendationEngine) (sqrt : ℚ → ℚ)
    (memoryHistory : List ℚ) (thresholds : ResourceThresholds) :
    Except String (ResourceRecommendation × ℤ) :=
  if (memoryHistory.length : ℤ) < r.minDataPoints then
    .error ("insufficient memory data points: " ++ toString memoryHistory.length ++
      " < " ++ toString r.minDataPoints)
  else
    let values := List.insertionSort (· ≤ ·) memoryHistory
    let percentile : ℤ :=
      if 0 < thresholds.memoryUtilizationPercentile then thresholds.memoryUtilizationPercentile
      else 95
    let percentileValue := calculatePercentile values (percentile : ℚ)
    let safetyMargin : ℤ :=
      if 0 < thresholds.safetyMargin then thresholds.safetyMargin
      else r.defaultSafetyMargin
    let recommendedLimit0 := percentileValue * (1 + (safetyMargin : ℚ) / 100)
    let recommendedLimit1 :=
      match thresholds.minMemory with
      | some minMemory => if recommendedLimit0 < minMemory then minMemory else recommendedLimit0
      | none => recommendedLimit0
    let recommendedLimit :=
      match thresholds.maxMemory with
      | some maxMemory => if maxMemory < recommendedLimit1 then maxMemory else recommendedLimit1
      | none => recommendedLimit1
    let confidence := calculateConfidence r sqrt values percentileValue
    .ok
      ({ limit := trunc recommendedLimit
         percentile := percentileValue
         confidence := confidence
         dataPoints := memoryHistory.length
         reason := "Based on " ++ toString percentile ++ "th percentile of " ++
           toString memoryHistory.length ++ " data points" }, confidence)

/-- Mirrors `metrics.PodMetrics` (the usage series carry only the sampled
values the engine reads; timestamps and units are not consumed by the
engine). -/
structure PodMetrics where
  podName : String
  ns : String
  cpuUsageHistory : List ℚ
  memUsageHistory : List ℚ
deriving DecidableEq

/-- Mirrors `metrics.WorkloadMetrics` (time window fields are not consumed by
the engine and are omitted). -/
structure WorkloadMetrics where
  workloadName : String
  workloadType : String
  ns : String
  pods : List PodMetrics
deriving DecidableEq

/-- Mirrors `corev1.ResourceRequirements` as an association list of resource
name to quantity value, for the `CurrentResources` bookkeeping done by the
controller. -/
structure ResourceLists where
  requests : List (String × ℚ)
  limits : List (String × ℚ)
deriving DecidableEq

/-- Mirrors `v1alpha1.PodRecommendation`.  `RecommendedResources` is flattened
into the four optional integer quantities actually written by
`generatePodRecommendation` (CPU in milli-cores, memory in bytes);
`PodReference` is flattened into name/ns/workloadType/workloadName.
`PotentialSavings` and `AppliedTime` are never written by the modelled code
paths and are omitted. -/
structure PodRecommendation where
  name : String
  ns : String
  workloadType : String
  workloadName : String
  currentResources : ResourceLists
  cpuLimitMillis : Option ℤ
  cpuRequestMillis : Option ℤ
  memLimitBytes : Option ℤ
  memRequestBytes : Option ℤ
  confidence : ℤ
  reason : String
  applied : Bool
deriving DecidableEq

/-- Mirrors `RecommendationEngine.buildReasonString`.  The source nil-checks
its two recommendation pointers, but its only caller
(`generatePodRecommendation`) always passes both non-nil, so the parameters
are plain values here and both branches of the nil-checks are taken. -/
def buildReasonString (r : RecommendationEngine)
    (cpuRec memRec : ResourceRecommendation)
    (thresholds : ResourceThresholds) : String :=
  let reason0 := "CPU: " ++ cpuRec.reason
  let reason1 := "Memory: " ++ memRec.reason
  let safetyMargin : ℤ :=
    if 0 < thresholds.safetyMargin then thresholds.safetyMargin
    else r.defaultSafetyMargin
  "Recommendations based on historical usage analysis. " ++
    reason0 ++ ". " ++ reason1 ++ ". " ++
    "Applied " ++ toString safetyMargin ++ "% safety margin."

/-- Mirrors `RecommendationEngine.generatePodRecommendation`.  The source
checks `cpuRec.Limit != nil` / `memoryRec.Limit != nil` before writing each
resource; both limits are always non-nil on the success path of the analyze
functions, so all four quantities are written. -/
def generatePodRecommendation (r : RecommendationEngine) (sqrt : ℚ → ℚ)
    (podMetrics : PodMetrics) (thresholds : ResourceThresholds) :
    Except String (Option PodRecommendation) :=
  match analyzeCPUUsage r sqrt podMetrics.cpuUsageHistory thresholds with
  | .error e => .error e
  | .ok (cpuRec, cpuConfidence) =>
    match analyzeMemoryUsage r sqrt podMetrics.memUsageHistory thresholds with
    | .error e => .error e
    | .ok (memoryRec, memoryConfidence) =>
      let overallConfidence : ℤ := min cpuConfidence memoryConfidence
      if overallConfidence < r.defaultConfidenceThreshold then .ok none
      else
        let cpuLimitValue : ℚ := (cpuRec.limit : ℚ) / 1000
        let cpuRequestValue : ℚ := cpuLimitValue * r.cpuRequestMultiplier
        let memLimitValue : ℚ := (memoryRec.limit : ℚ)
        let memRequestValue : ℚ := memLimitValue * r.memoryRequestMultiplier
        .ok (some
          { name := podMetrics.podName
            ns := podMetrics.ns
            workloadType := ""
            workloadName := ""
            currentResources := ⟨[], []⟩
            cpuLimitMillis := some cpuRec.limit
            cpuRequestMillis := some (trunc (cpuRequestValue * 1000))
            memLimitBytes := some memoryRec.limit
            memRequestBytes := some (trunc memRequestValue)
            confidence := overallConfidence
            reason := buildReasonString r cpuRec memoryRec thresholds
            applied := false })

/-- The pod loop of `RecommendationEngine.GenerateRecommendations`: a failed
or suppressed (`nil`) per-pod recommendation is skipped and the loop
continues with the remaining pods. -/
def generateRecommendationsLoop (r : RecommendationEngine) (sqrt : ℚ → ℚ)
    (thresholds : ResourceThresholds) :
    List PodMetrics → List PodRecommendation → List PodRecommendation
  | [], acc => acc
  | podMetrics :: rest, acc =>
    match generatePodRecommendation r sqrt podMetrics thresholds with
    | .error _ => generateRecommendationsLoop r sqrt thresholds rest acc
    | .ok none => generateRecommendationsLoop r sqrt thresholds rest acc
    | .ok (some rec) => generateRecommendationsLoop r sqrt thresholds rest (acc ++ [rec])

/-- Mirrors `RecommendationEngine.GenerateRecommendations`. -/
def GenerateRecommendations (r : RecommendationEngine) (sqrt : ℚ → ℚ)
    (workloadMetrics : WorkloadMetrics) (thresholds : ResourceThresholds) :
    Except String (List PodRecommendation) :=
  if workloadMetrics.pods.length = 0 then .error "no pod metrics provided"
  else .ok (generateRecommendationsLoop r sqrt thresholds workloadMetrics.pods [])

/-! ## Reconciliation controller (internal/controller/podrightsizing_controller.go)

The cluster-API surface the controller reads (pods, namespaces, ReplicaSets)
is modelled as explicit data (`Cluster`); label and namespace selectors are
modelled as already-parsed predicates on label sets (the source's
selector-parse error branches therefore do not arise); the metrics client is
an oracle function returning `Except`, and the status-subresource write API
is a trace of per-attempt outcomes (`WriteOutcome`), one consumed per
`Status().Update` call. -/

/-- Mirrors `metav1.OwnerReference` (the fields the controller reads). -/
structure OwnerRef where
  kind : String
  name : String
deriving DecidableEq

/-- Mirrors `corev1.Container` (the fields the controller reads). -/
structure Container where
  name : String
  requests : List (String × ℚ)
  limits : List (String × ℚ)
deriving DecidableEq

/-- Mirrors `corev1.Pod` (the fields the controller reads; `phase` is the pod
status phase string, e.g. "Running"). -/
structure Pod where
  name : String
  ns : String
  labels : List (String × String)
  phase : String
  ownerRefs : List OwnerRef
  containers : List Container
deriving DecidableEq

/-- Mirrors `appsv1.ReplicaSet` (the fields `getWorkloadName` reads). -/
structure ReplicaSet where
  name : String
  ns : String
  ownerRefs : List OwnerRef
deriving DecidableEq

/-- Mirrors `corev1.Namespace` (name plus labels, for `NamespaceSelector`). -/
structure NamespaceInfo where
  name : String
  labels : List (String × String)
deriving DecidableEq

/-- The cluster contents visible to one reconcile pass. -/
structure Cluster where
  namespaces : List NamespaceInfo
  pods : List Pod
  replicaSets : List ReplicaSet

/-- Mirrors `v1alpha1.TargetSpec`; the two selectors are modelled as
already-parsed predicates over label sets (`none` ↦ nil selector). -/
structure TargetSpec where
  ns : String
  namespaceSelector : Option (List (String × String) → Bool)
  labelSelector : Option (List (String × String) → Bool)
  excludeNamespaces : List String
  includeWorkloadTypes : List String

/-- Mirrors `v1alpha1.RightSizingPhase`. -/
inductive RightSizingPhase
  | initializing
  | analyzing
  | recommending
  | updating
  | completed
  | error
deriving DecidableEq

/-- Mirrors `v1alpha1.PodRightSizingSpec` (the fields the modelled pass
reads).  `analysisWindow` is the parsed `AnalysisWindow` duration in seconds
(`none` ↦ empty or unparseable string, the source then falls back to its
default). -/
structure PodRightSizingSpec where
  target : TargetSpec
  analysisWindow : Option ℕ
  dryRun : Bool
  thresholds : ResourceThresholds

/-- Mirrors `v1alpha1.PodRightSizingStatus`.  The two wall-clock timestamps
are modelled as set/unset flags. -/
structure PodRightSizingStatus where
  phase : RightSizingPhase
  message : String
  lastAnalysisTimeSet : Bool
  lastUpdateTimeSet : Bool
  targetedPods : ℕ
  updatedPods : ℕ
  recommendations : List PodRecommendation

/-- Mirrors `v1alpha1.PodRightSizing`. -/
structure PodRightSizing where
  spec : PodRightSizingSpec
  status : PodRightSizingStatus

/-- Outcome the API server gives one `Status().Update` attempt: success, or
an optimistic-concurrency conflict (object changed since it was read). -/
inductive WriteOutcome
  | ok
  | conflict
deriving DecidableEq

/-- Mirrors `PodRightSizingReconciler.updatePhase`: it mutates the in-memory
phase and message and issues exactly one `r.Status().Update(ctx, prs)` call,
returning that call's error verbatim.  The API's per-attempt outcomes are
threaded as the trace `api`; the returned trace is what later write attempts
would consume. -/
def updatePhase (api : List WriteOutcome) (prs : PodRightSizing)
    (phase : RightSizingPhase) (message : String) :
    PodRightSizing × Except String Unit × List WriteOutcome :=
  let prs2 := { prs with status := { prs.status with phase := phase, message := message } }
  match api with
  | [] => (prs2, .error "no api response", [])
  | .ok :: rest => (prs2, .ok (), rest)
  | .conflict :: rest =>
      (prs2, .error "Operation cannot be fulfilled: the object has been modified", rest)

/-- Mirrors `PodRightSizingReconciler.isNamespaceExcluded`. -/
def isNamespaceExcluded (ns : String) (excludeList : List String) : Bool :=
  excludeList.any (fun excludeNs => ns == excludeNs)

/-- The owner-reference loop of `PodRightSizingReconciler.getWorkloadType`. -/
def getWorkloadTypeLoop : List OwnerRef → String
  | [] => "Pod"
  | owner :: rest =>
    if owner.kind == "ReplicaSet" then "Deployment"
    else if owner.kind == "StatefulSet" then "StatefulSet"
    else if owner.kind == "DaemonSet" then "DaemonSet"
    else if owner.kind == "Job" then "Job"
    else if owner.kind == "CronJob" then "CronJob"
    else getWorkloadTypeLoop rest

/-- Mirrors `PodRightSizingReconciler.getWorkloadType`. -/
def getWorkloadType (pod : Pod) : String :=
  getWorkloadTypeLoop pod.ownerRefs

/-- Mirrors the resource-presence loop of `shouldIncludePod` ("skip if pod
doesn't have resource requests/limits"). -/
def podHasResources (pod : Pod) : Bool :=
  pod.containers.any (fun c => 0 < c.requests.length || 0 < c.limits.length)

/-- Mirrors `PodRightSizingReconciler.shouldIncludePod`. -/
def shouldIncludePod (pod : Pod) (prs : PodRightSizing) : Bool :=
  if pod.phase != "Running" then false
  else if pod.ownerRefs.length = 0 then false
  else if 0 < prs.spec.target.includeWorkloadTypes.length &&
      !(prs.spec.target.includeWorkloadTypes.any (fun t => getWorkloadType pod == t)) then
    false
  else podHasResources pod

/-- One iteration of the namespace loop in `discoverTargetPods`: skip the
namespace if excluded, otherwise list the pods the label selector matches
(restricted to the namespace unless it is the catch-all empty string) and
keep those passing `shouldIncludePod`. -/
def listPodsInNamespace (c : Cluster) (prs : PodRightSizing)
    (selector : List (String × String) → Bool) (ns : String) : List Pod :=
  if isNamespaceExcluded ns prs.spec.target.excludeNamespaces then []
  else
    (c.pods.filter (fun pod => selector pod.labels && (ns == "" || pod.ns == ns))).filter
      (fun pod => shouldIncludePod pod prs)

/-- The target-namespace resolution of `discoverTargetPods`: all namespaces
matching the namespace selector, else the exact namespace, else the catch-all
empty string standing for a cluster-wide pod list. -/
def resolvedNamespaces (c : Cluster) (prs : PodRightSizing) : List String :=
  match prs.spec.target.namespaceSelector with
  | some namespaceSelector =>
      (c.namespaces.filter (fun n => namespaceSelector n.labels)).map
        (fun n => n.name)
  | none =>
      if prs.spec.target.ns != "" then [prs.spec.target.ns] else [""]

/-- Mirrors `PodRightSizingReconciler.discoverTargetPods`: resolve the target
namespaces, then run the namespace loop.  Selector parsing cannot fail in
this model, so the function is total. -/
def discoverTargetPods (c : Cluster) (prs : PodRightSizing) : List Pod :=
  let selector := prs.spec.target.labelSelector.getD (fun _ => true)
  (resolvedNamespaces c prs).foldl
    (fun pods ns => pods ++ listPodsInNamespace c prs selector ns) []

/-- The owner-reference loop of `getWorkloadName`: a ReplicaSet owner is
resolved one level further to its owning Deployment (continuing with the
remaining owners when the ReplicaSet is missing or has no Deployment owner);
any other owner kind is returned directly; with no owners the pod's own name
is returned. -/
def getWorkloadNameLoop (c : Cluster) (podNs podName : String) :
    List OwnerRef → String
  | [] => podName
  | owner :: rest =>
    if owner.kind == "ReplicaSet" then
      match c.replicaSets.find? (fun rs => rs.name == owner.name && rs.ns == podNs) with
      | some rs =>
        match rs.ownerRefs.find? (fun o => o.kind == "Deployment") with
        | some deploymentOwner => deploymentOwner.name
        | none => getWorkloadNameLoop c podNs podName rest
      | none => getWorkloadNameLoop c podNs podName rest
    else owner.name

/-- Mirrors `PodRightSizingReconciler.getWorkloadName`. -/
def getWorkloadName (c : Cluster) (pod : Pod) : String :=
  getWorkloadNameLoop c pod.ns pod.name pod.ownerRefs

/-- The Go code keys workload groups by the string
`namespace + "/" + workloadType + "/" + workloadName` and later splits it
with `strings.SplitN(key, "/", 3)`; the key is modelled as the triple
itself. -/
structure WorkloadKey where
  ns : String
  workloadType : String
  workloadName : String
deriving DecidableEq

/-- Appends a pod to its group, preserving first-appearance group order (the
Go version uses a map; the claims only concern group contents). -/
def insertGrouped (key : WorkloadKey) (pod : Pod) :
    List (WorkloadKey × List Pod) → List (WorkloadKey × List Pod)
  | [] => [(key, [pod])]
  | (k, pods) :: rest =>
    if k = key then (k, pods ++ [pod]) :: rest
    else (k, pods) :: insertGrouped key pod rest

/-- Mirrors `PodRightSizingReconciler.groupPodsByWorkload`. -/
def groupPodsByWorkload (c : Cluster) (pods : List Pod) :
    List (WorkloadKey × List Pod) :=
  pods.foldl
    (fun groups pod =>
      insertGrouped ⟨pod.ns, getWorkloadType pod, getWorkloadName c pod⟩ pod groups)
    []

/-- Mirrors the map update in `addResourceToTotal` (`total[rt] = v`). -/
def setResource : List (String × ℚ) → String → ℚ → List (String × ℚ)
  | [], resourceType, v => [(resourceType, v)]
  | (k, w) :: rest, resourceType, v =>
    if k == resourceType then (resourceType, v) :: rest
    else (k, w) :: setResource rest resourceType v

/-- Mirrors `PodRightSizingReconciler.addResourceToTotal`. -/
def addResourceToTotal (total source : List (String × ℚ)) (resourceType : String) :
    List (String × ℚ) :=
  match (source.find? (fun p => p.1 == resourceType)).map (fun p => p.2) with
  | none => total
  | some quantity =>
    match (total.find? (fun p => p.1 == resourceType)).map (fun p => p.2) with
    | none => setResource total resourceType quantity
    | some existing => setResource total resourceType (existing + quantity)

/-- Mirrors `PodRightSizingReconciler.getCurrentResources`. -/
def getCurrentResources (pod : Pod) : ResourceLists :=
  let totals := pod.containers.foldl
    (fun (acc : List (String × ℚ) × List (String × ℚ)) c =>
      (addResourceToTotal (addResourceToTotal acc.1 c.requests "cpu") c.requests "memory",
       addResourceToTotal (addResourceToTotal acc.2 c.limits "cpu") c.limits "memory"))
    ([], [])
  ⟨totals.1, totals.2⟩

/-- The metrics client consumed by the controller:
`GetWorkloadMetrics(namespace, workloadName, workloadType, window)`. -/
abbrev MetricsOracle :=
  String → String → String → ℕ → Except String WorkloadMetrics

/-- Mirrors `PodRightSizingReconciler.generateWorkloadRecommendations`
(window parse fallback of 7 days, per-workload metrics fetch, empty-metrics
error, engine call, then enhancement of each recommendation with workload
identity and the matching pod's current resources). -/
def generateWorkloadRecommendations (eng : RecommendationEngine) (sqrt : ℚ → ℚ)
    (metricsClient : MetricsOracle) (prs : PodRightSizing)
    (workloadKey : WorkloadKey) (pods : List Pod) :
    Except String (List PodRecommendation) :=
  let window := prs.spec.analysisWindow.getD (7 * 24 * 3600)
  match metricsClient workloadKey.ns workloadKey.workloadName workloadKey.workloadType window with
  | .error e => .error e
  | .ok workloadMetrics =>
    if workloadMetrics.pods.length = 0 then
      .error ("no metrics found for workload " ++ workloadKey.ns ++ "/" ++
        workloadKey.workloadType ++ "/" ++ workloadKey.workloadName)
    else
      match GenerateRecommendations eng sqrt workloadMetrics prs.spec.thresholds with
      | .error e => .error e
      | .ok recommendations =>
        .ok (recommendations.map (fun rec =>
          { rec with
            workloadType := workloadKey.workloadType
            workloadName := workloadKey.workloadName
            currentResources :=
              match pods.find? (fun pod => pod.name == rec.name) with
              | some pod => getCurrentResources pod
              | none => rec.currentResources }))

/-- Helper used to state what the recommending loop collects: the
recommendations of a workload group, or nothing when that group's
`generateWorkloadRecommendations` call failed (the `continue` branch). -/
def workloadRecsOrEmpty (eng : RecommendationEngine) (sqrt : ℚ → ℚ)
    (metricsClient : MetricsOracle) (prs : PodRightSizing)
    (group : WorkloadKey × List Pod) : List PodRecommendation :=
  match generateWorkloadRecommendations eng sqrt metricsClient prs group.1 group.2 with
  | .error _ => []
  | .ok recs => recs

/-- The final status write of a pass: phase Completed with the
recommendation-count message (plus dry-run marker). -/
def reconcileFinish (api : List WriteOutcome) (prs : PodRightSizing)
    (recommendationCount : ℕ) :
    PodRightSizing × Except String Unit × List WriteOutcome :=
  let message := "Analysis completed. Found " ++ toString recommendationCount ++
    " recommendations" ++ (if prs.spec.dryRun then " (dry-run mode)" else "")
  match updatePhase api prs .completed message with
  | (prs2, .error e, api2) => (prs2, .error e, api2)
  | (prs2, .ok _, api2) => (prs2, .ok (), api2)

/-- Mirrors the body of `PodRightSizingReconciler.Reconcile` from the
transition into the Analyzing phase onward (the preceding object fetch and
`shouldRunAnalysis` schedule check are wall-clock dependent and are the
caller's precondition here; requeue intervals are not modelled).  The
Updating phase's workload patching is abstracted as the oracle `applyRecs`
returning the updated-workload count — `applyRecommendations` never returns
an error in the source, so this cannot affect control flow.  Returns the
final in-memory object, the error the reconcile loop would return, and the
unconsumed write-outcome trace. -/
def reconcilePass (c : Cluster) (eng : RecommendationEngine) (sqrt : ℚ → ℚ)
    (metricsClient : MetricsOracle) (applyRecs : List PodRecommendation → ℕ)
    (api : List WriteOutcome) (prs : PodRightSizing) :
    PodRightSizing × Except String Unit × List WriteOutcome :=
  match updatePhase api prs .analyzing "Starting resource analysis" with
  | (prs1, .error e, api1) => (prs1, .error e, api1)
  | (prs1, .ok _, api1) =>
    let targetPods := discoverTargetPods c prs1
    let prs2 := { prs1 with status := { prs1.status with targetedPods := targetPods.length } }
    if targetPods.length = 0 then
      match updatePhase api1 prs2 .completed "No matching pods found" with
      | (prs3, .error e, api2) => (prs3, .error e, api2)
      | (prs3, .ok _, api2) => (prs3, .ok (), api2)
    else
      let workloadGroups := groupPodsByWorkload c targetPods
      match updatePhase api1 prs2 .recommending "Generating recommendations" with
      | (prs3, .error e, api2) => (prs3, .error e, api2)
      | (prs3, .ok _, api2) =>
        let allRecommendations := workloadGroups.foldl
          (fun acc group =>
            match generateWorkloadRecommendations eng sqrt metricsClient prs3 group.1 group.2 with
            | .error _ => acc
            | .ok recs => acc ++ recs)
          []
        let prs4 := { prs3 with status := { prs3.status with
          recommendations := allRecommendations, lastAnalysisTimeSet := true } }
        if prs4.spec.dryRun then
          reconcileFinish api2 prs4 allRecommendations.length
        else
          match updatePhase api2 prs4 .updating "Applying recommendations" with
          | (prs5, .error e, api3) => (prs5, .error e, api3)
          | (prs5, .ok _, api3) =>
            let updatedCount := applyRecs allRecommendations
            let prs6 := { prs5 with status := { prs5.status with
              updatedPods := updatedCount, lastUpdateTimeSet := true } }
            reconcileFinish api3 prs6 allRecommendations.length

/-! ## Supporting lemmas -/

theorem trunc_nonneg {q : ℚ} (h : 0 ≤ q) : 0 ≤ trunc q := by
  unfold trunc
  rw [if_neg (not_lt.mpr h)]
  exact Int.floor_nonneg.mpr h

theorem trunc_le_intCast {q : ℚ} {n : ℤ} (h : q ≤ (n : ℚ)) : trunc q ≤ n := by
  unfold trunc
  split
  · exact Int.ceil_le.mpr h
  · calc ⌊q⌋ ≤ ⌊(n : ℚ)⌋ := Int.floor_le_floor h
      _ = n := Int.floor_intCast n

theorem getD_eq_get : ∀ (l : List ℚ) (i : ℕ) (h : i < l.length), l.getD i 0 = l.get ⟨i, h⟩
  | _ :: _, 0, _ => rfl
  | _ :: l, i + 1, h => getD_eq_get l i (Nat.lt_of_succ_lt_succ h)

theorem sorted_getD_mono (l : List ℚ) (hs : l.Sorted (· ≤ ·)) {i j : ℕ}
    (hij : i ≤ j) (hj : j < l.length) : l.getD i 0 ≤ l.getD j 0 := by
  have hi : i < l.length := lt_of_le_of_lt hij hj
  rw [getD_eq_get l i hi, getD_eq_get l j hj]
  exact hs.rel_get_of_le (Fin.mk_le_mk.mpr hij)

theorem getD_nonneg (l : List ℚ) (h : ∀ x ∈ l, 0 ≤ x) (i : ℕ) : 0 ≤ l.getD i 0 := by
  by_cases hi : i < l.length
  · rw [getD_eq_get l i hi]
    exact h _ (l.get_mem i hi)
  · rw [List.getD_eq_default _ _ (le_of_not_lt hi)]

theorem calculatePercentile_le_zero (l : List ℚ) (p : ℚ) (hl : 0 < l.length)
    (hp : p ≤ 0) : calculatePercentile l p = l.getD 0 0 := by
  unfold calculatePercentile
  rw [if_neg (by omega), if_pos hp]

theorem calculatePercentile_ge_hundred (l : List ℚ) (p : ℚ) (hl : 0 < l.length)
    (hp : 100 ≤ p) : calculatePercentile l p = l.getD (l.length - 1) 0 := by
  unfold calculatePercentile
  rw [if_neg (by omega), if_neg (by linarith), if_pos hp]

theorem calculatePercentile_mid (l : List ℚ) (p : ℚ) (hl : 0 < l.length)
    (hp0 : 0 < p) (hp1 : p < 100) :
    calculatePercentile l p =
      (if ⌊p / 100 * ((l.length : ℚ) - 1)⌋ = ⌈p / 100 * ((l.length : ℚ) - 1)⌉ then
        l.getD (⌊p / 100 * ((l.length : ℚ) - 1)⌋).toNat 0
      else
        l.getD (⌊p / 100 * ((l.length : ℚ) - 1)⌋).toNat 0 *
            (1 - (p / 100 * ((l.length : ℚ) - 1) - (⌊p / 100 * ((l.length : ℚ) - 1)⌋ : ℚ))) +
          l.getD (⌈p / 100 * ((l.length : ℚ) - 1)⌉).toNat 0 *
            (p / 100 * ((l.length : ℚ) - 1) - (⌊p / 100 * ((l.length : ℚ) - 1)⌋ : ℚ))) := by
  unfold calculatePercentile
  rw [if_neg (by omega), if_neg (by linarith), if_neg (by linarith)]

theorem calculatePercentile_bounds (l : List ℚ) (p : ℚ) (hl : 0 < l.length)
    (hs : l.Sorted (· ≤ ·)) :
    l.getD 0 0 ≤ calculatePercentile l p ∧
      calculatePercentile l p ≤ l.getD (l.length - 1) 0 := by
  by_cases hp : p ≤ 0
  · rw [calculatePercentile_le_zero l p hl hp]
    exact ⟨le_refl _, sorted_getD_mono l hs (Nat.zero_le _) (by omega)⟩
  by_cases hp2 : 100 ≤ p
  · rw [calculatePercentile_ge_hundred l p hl hp2]
    exact ⟨sorted_getD_mono l hs (Nat.zero_le _) (by omega), le_refl _⟩
  push_neg at hp hp2
  rw [calculatePercentile_mid l p hl hp hp2]
  set index : ℚ := p / 100 * ((l.length : ℚ) - 1) with hindexDef
  have hn1 : (1 : ℚ) ≤ (l.length : ℚ) := by exact_mod_cast hl
  have hi0 : 0 ≤ index := by
    apply mul_nonneg (by positivity) (by linarith)
  have hi1 : index ≤ (l.length : ℚ) - 1 := by
    have hple : p / 100 ≤ 1 := by
      rw [div_le_one (by norm_num)]
      linarith
    calc index ≤ 1 * ((l.length : ℚ) - 1) := by
          apply mul_le_mul_of_nonneg_right hple (by linarith)
      _ = (l.length : ℚ) - 1 := one_mul _
  have hfl0 : 0 ≤ ⌊index⌋ := Int.floor_nonneg.mpr hi0
  have hceil : ⌈index⌉ ≤ (l.length : ℤ) - 1 := by
    rw [Int.ceil_le]
    push_cast
    exact hi1
  have hflc : ⌊index⌋ ≤ ⌈index⌉ := Int.floor_le_ceil index
  have hlowLt : (⌊index⌋).toNat < l.length := by omega
  have hupLt : (⌈index⌉).toNat < l.length := by omega
  have hupLe : (⌈index⌉).toNat ≤ l.length - 1 := by omega
  have hlowLe : (⌊index⌋).toNat ≤ l.length - 1 := by omega
  have hma : l.getD 0 0 ≤ l.getD (⌊index⌋).toNat 0 :=
    sorted_getD_mono l hs (Nat.zero_le _) hlowLt
  have hmb : l.getD 0 0 ≤ l.getD (⌈index⌉).toNat 0 :=
    sorted_getD_mono l hs (Nat.zero_le _) hupLt
  have haM : l.getD (⌊index⌋).toNat 0 ≤ l.getD (l.length - 1) 0 :=
    sorted_getD_mono l hs hlowLe (by omega)
  have hbM : l.getD (⌈index⌉).toNat 0 ≤ l.getD (l.length - 1) 0 :=
    sorted_getD_mono l hs hupLe (by omega)
  have hw0 : 0 ≤ index - (⌊index⌋ : ℚ) := sub_nonneg.mpr (Int.floor_le index)
  have hw1 : index - (⌊index⌋ : ℚ) ≤ 1 := by
    have := Int.lt_floor_add_one index
    linarith
  split
  · exact ⟨hma, haM⟩
  · constructor
    · have h1 : 0 ≤ (l.getD (⌊index⌋).toNat 0 - l.getD 0 0) * (1 - (index - (⌊index⌋ : ℚ))) :=
        mul_nonneg (by linarith) (by linarith)
      have h2 : 0 ≤ (l.getD (⌈index⌉).toNat 0 - l.getD 0 0) * (index - (⌊index⌋ : ℚ)) :=
        mul_nonneg (by linarith) hw0
      nlinarith [h1, h2]
    · have h3 : 0 ≤ (l.getD (l.length - 1) 0 - l.getD (⌊index⌋).toNat 0) *
          (1 - (index - (⌊index⌋ : ℚ))) :=
        mul_nonneg (by linarith) (by linarith)
      have h4 : 0 ≤ (l.getD (l.length - 1) 0 - l.getD (⌈index⌉).toNat 0) *
          (index - (⌊index⌋ : ℚ)) :=
        mul_nonneg (by linarith) hw0
      nlinarith [h3, h4]

theorem calculatePercentile_nonneg (l : List ℚ) (p : ℚ) (h : ∀ x ∈ l, 0 ≤ x) :
    0 ≤ calculatePercentile l p := by
  have hget := getD_nonneg l h
  unfold calculatePercentile
  split
  · exact le_refl 0
  split
  · exact hget 0
  split
  · exact hget _
  dsimp only
  split
  · exact hget _
  · set index : ℚ := p / 100 * ((l.length : ℚ) - 1) with hindexDef
    have hw0 : 0 ≤ index - (⌊index⌋ : ℚ) := sub_nonneg.mpr (Int.floor_le index)
    have hw1 : index - (⌊index⌋ : ℚ) ≤ 1 := by
      have := Int.lt_floor_add_one index
      linarith
    have ha := hget (⌊index⌋).toNat
    have hb := hget (⌈index⌉).toNat
    have h1 : 0 ≤ l.getD (⌊index⌋).toNat 0 * (1 - (index - (⌊index⌋ : ℚ))) :=
      mul_nonneg ha (by linarith)
    have h2 : 0 ≤ l.getD (⌈index⌉).toNat 0 * (index - (⌊index⌋ : ℚ)) :=
      mul_nonneg hb hw0
    linarith

theorem ceil_eq_neg_floor (q : ℚ) : ⌈q⌉ = -⌊-q⌋ := by
  rw [Int.floor_neg, neg_neg]

/-! ## Claim theorems -/

/-- The sample `[1..10]` used by the spec's worked examples. -/
def sample10 : List ℚ := [1, 2, 3, 4, 5, 6, 7, 8, 9, 10]

theorem sample10_sorted : List.Sorted (· ≤ ·) sample10 := by
  norm_num [sample10, List.sorted_cons]

/-- C1: for every non-empty ascending-sorted sample and every percentile `p`,
`calculatePercentile` returns the head for `p ≤ 0`, the last element for
`p ≥ 100`, and otherwise the linear interpolation on order statistics at
index `(p/100)·(n−1)` (the element itself when floor = ceil of the index);
the head and last element are the sample's minimum and maximum, and the
result always lies between them.  On `[1..10]` it returns `11/2` at `p = 50`,
`91/10` at `p = 90` and `191/20` at `p = 95`. -/
theorem C1_calculatePercentile_interpolation :
    (∀ (l : List ℚ) (p : ℚ), 0 < l.length → l.Sorted (· ≤ ·) →
      (p ≤ 0 → calculatePercentile l p = l.getD 0 0) ∧
      (100 ≤ p → calculatePercentile l p = l.getD (l.length - 1) 0) ∧
      (∀ x ∈ l, l.getD 0 0 ≤ x ∧ x ≤ l.getD (l.length - 1) 0) ∧
      (0 < p → p < 100 →
        calculatePercentile l p =
          (if ⌊p / 100 * ((l.length : ℚ) - 1)⌋ = ⌈p / 100 * ((l.length : ℚ) - 1)⌉ then
            l.getD (⌊p / 100 * ((l.length : ℚ) - 1)⌋).toNat 0
          else
            l.getD (⌊p / 100 * ((l.length : ℚ) - 1)⌋).toNat 0 *
                (1 - (p / 100 * ((l.length : ℚ) - 1) -
                  (⌊p / 100 * ((l.length : ℚ) - 1)⌋ : ℚ))) +
              l.getD (⌈p / 100 * ((l.length : ℚ) - 1)⌉).toNat 0 *
                (p / 100 * ((l.length : ℚ) - 1) -
                  (⌊p / 100 * ((l.length : ℚ) - 1)⌋ : ℚ)))) ∧
      l.getD 0 0 ≤ calculatePercentile l p ∧
      calculatePercentile l p ≤ l.getD (l.length - 1) 0) ∧
    calculatePercentile sample10 50 = 11 / 2 ∧
    calculatePercentile sample10 90 = 91 / 10 ∧
    calculatePercentile sample10 95 = 191 / 20 := by
  refine ⟨fun l p hl hs => ?_, ?_, ?_, ?_⟩
  · obtain ⟨hlow, hhigh⟩ := calculatePercentile_bounds l p hl hs
    refine ⟨calculatePercentile_le_zero l p hl,
      calculatePercentile_ge_hundred l p hl, ?_,
      fun hp0 hp1 => calculatePercentile_mid l p hl hp0 hp1, hlow, hhigh⟩
    intro x hx
    obtain ⟨i, hi⟩ := List.mem_iff_get.mp hx
    subst hi
    rw [← getD_eq_get l i i.isLt]
    exact ⟨sorted_getD_mono l hs (Nat.zero_le _) i.isLt,
      sorted_getD_mono l hs (by omega) (by omega)⟩
  · norm_num [calculatePercentile, sample10, ceil_eq_neg_floor]
    try simp
    try norm_num
  · norm_num [calculatePercentile, sample10, ceil_eq_neg_floor]
    try simp
    try norm_num
  · norm_num [calculatePercentile, sample10, ceil_eq_neg_floor]
    try simp
    try norm_num

theorem C1_witness :
    0 < sample10.length ∧ List.Sorted (· ≤ ·) sample10 ∧
    (sample10.getD 0 0 ≤ calculatePercentile sample10 50 ∧
      calculatePercentile sample10 50 ≤ sample10.getD (sample10.length - 1) 0) :=
  ⟨by decide, sample10_sorted,
    (C1_calculatePercentile_interpolation.1 sample10 50 (by decide)
      sample10_sorted).2.2.2.2⟩

theorem confidenceBase_nonneg (cv : ℚ) :
    0 ≤ (if 1 / 2 < cv then 30 + trunc (20 * (1 - min (cv - 1 / 2) (1 / 2) / (1 / 2)))
      else if 3 / 10 < cv then 70 + trunc (25 * (1 - (cv - 3 / 10) / (2 / 10)))
      else if 1 / 10 < cv then 95 + trunc (5 * (1 - (cv - 1 / 10) / (2 / 10)))
      else 100) := by
  split_ifs with h1 h2 h3
  · have hm : min (cv - 1 / 2) (1 / 2) ≤ 1 / 2 := min_le_right _ _
    have hdiv : min (cv - 1 / 2) (1 / 2) / (1 / 2) ≤ 1 :=
      (div_le_one (by norm_num)).mpr hm
    have ht := trunc_nonneg (q := 20 * (1 - min (cv - 1 / 2) (1 / 2) / (1 / 2)))
      (by linarith)
    omega
  · have hdiv : (cv - 3 / 10) / (2 / 10) ≤ 1 :=
      (div_le_one (by norm_num)).mpr (by linarith)
    have ht := trunc_nonneg (q := 25 * (1 - (cv - 3 / 10) / (2 / 10))) (by linarith)
    omega
  · have hdiv : (cv - 1 / 10) / (2 / 10) ≤ 1 :=
      (div_le_one (by norm_num)).mpr (by linarith)
    have ht := trunc_nonneg (q := 5 * (1 - (cv - 1 / 10) / (2 / 10))) (by linarith)
    omega
  · norm_num

theorem confidenceFinal_range (conf : ℤ) (boost : ℚ) (hc : 0 ≤ conf) (hb : 0 ≤ boost) :
    0 ≤ trunc (min ((conf : ℚ) * (1 + boost)) 100) ∧
      trunc (min ((conf : ℚ) * (1 + boost)) 100) ≤ 100 := by
  have h1 : 0 ≤ (conf : ℚ) * (1 + boost) :=
    mul_nonneg (by exact_mod_cast hc) (by linarith)
  have h0 : 0 ≤ min ((conf : ℚ) * (1 + boost)) 100 := le_min h1 (by norm_num)
  have h2 : min ((conf : ℚ) * (1 + boost)) 100 ≤ ((100 : ℤ) : ℚ) := by
    push_cast
    exact min_le_right _ _
  exact ⟨trunc_nonneg h0, trunc_le_intCast h2⟩

/-- C5: `calculateConfidence` always returns an integer in `[0, 100]`: fewer
than two samples yield exactly 50, and otherwise the coefficient-of-variation
cases plus the sample-size boost (`min (floor (confidence × (1 + min (n/100,
0.1))), 100)`) stay within the range — for an arbitrary `sqrt` model, hence
for any coefficient of variation. -/
theorem C5_calculateConfidence_range (r : RecommendationEngine) (sqrt : ℚ → ℚ)
    (values : List ℚ) (percentileValue : ℚ) :
    (values.length < 2 → calculateConfidence r sqrt values percentileValue = 50) ∧
    0 ≤ calculateConfidence r sqrt values percentileValue ∧
    calculateConfidence r sqrt values percentileValue ≤ 100 := by
  unfold calculateConfidence
  by_cases h2 : values.length < 2
  · rw [if_pos h2]
    exact ⟨fun _ => rfl, by norm_num, by norm_num⟩
  · rw [if_neg h2]
    refine ⟨fun h => absurd h h2, ?_⟩
    exact confidenceFinal_range _ _ (confidenceBase_nonneg _)
      (le_min (by positivity) (by norm_num))

theorem C5_witness :
    calculateConfidence newRecommendationEngine (fun _ => 0) [] 0 = 50 ∧
    0 ≤ calculateConfidence newRecommendationEngine (fun _ => 0) sample10 0 ∧
    calculateConfidence newRecommendationEngine (fun _ => 0) sample10 0 ≤ 100 :=
  ⟨(C5_calculateConfidence_range newRecommendationEngine (fun _ => 0) [] 0).1
      (by decide),
    (C5_calculateConfidence_range newRecommendationEngine (fun _ => 0) sample10 0).2.1,
    (C5_calculateConfidence_range newRecommendationEngine (fun _ => 0) sample10 0).2.2⟩

/-- C9: `GenerateRecommendations` fails exactly on an empty pod list (with
the error "no pod metrics provided"); for any non-empty pod list it returns
`.ok` of the skip-on-failure loop, and a pod whose per-pod recommendation
fails is silently skipped by that loop. -/
theorem C9_generateRecommendations_error_iff (r : RecommendationEngine)
    (sqrt : ℚ → ℚ) (workloadMetrics : WorkloadMetrics)
    (thresholds : ResourceThresholds) :
    (workloadMetrics.pods.length = 0 →
      GenerateRecommendations r sqrt workloadMetrics thresholds =
        .error "no pod metrics provided") ∧
    (workloadMetrics.pods.length ≠ 0 →
      GenerateRecommendations r sqrt workloadMetrics thresholds =
        .ok (generateRecommendationsLoop r sqrt thresholds workloadMetrics.pods [])) ∧
    (∀ (podMetrics : PodMetrics) (rest : List PodMetrics)
        (acc : List PodRecommendation) (e : String),
      generatePodRecommendation r sqrt podMetrics thresholds = .error e →
      generateRecommendationsLoop r sqrt thresholds (podMetrics :: rest) acc =
        generateRecommendationsLoop r sqrt thresholds rest acc) := by
  refine ⟨fun h => ?_, fun h => ?_, fun podMetrics rest acc e he => ?_⟩
  · unfold GenerateRecommendations
    rw [if_pos h]
  · unfold GenerateRecommendations
    rw [if_neg h]
  · conv_lhs => rw [generateRecommendationsLoop, he]

/-- A workload-metrics value whose single pod has no usage samples at all, so
its per-pod analysis fails on insufficient data. -/
def wmAllFail : WorkloadMetrics :=
  { workloadName := "web", workloadType := "Deployment", ns := "default",
    pods := [{ podName := "web-1", ns := "default",
               cpuUsageHistory := [], memUsageHistory := [] }] }

/-- A workload-metrics value with no pods. -/
def wmEmpty : WorkloadMetrics :=
  { workloadName := "web", workloadType := "Deployment", ns := "default", pods := [] }

/-- The all-thresholds-unset configuration (zero percentiles and margin, no
clamps), as a zero-valued `v1alpha1.ResourceThresholds` decodes. -/
def tZero : ResourceThresholds :=
  { cpuUtilizationPercentile := 0, memoryUtilizationPercentile := 0,
    minCPU := none, maxCPU := none, minMemory := none, maxMemory := none,
    safetyMargin := 0 }

theorem wmAllFail_loop_eval :
    generateRecommendationsLoop newRecommendationEngine (fun _ => 0) tZero
      wmAllFail.pods [] = [] := by
  norm_num [wmAllFail, generateRecommendationsLoop, generatePodRecommendation,
    analyzeCPUUsage, newRecommendationEngine]

theorem C9_witness :
    GenerateRecommendations newRecommendationEngine (fun _ => 0) wmAllFail tZero =
      .ok [] ∧
    GenerateRecommendations newRecommendationEngine (fun _ => 0) wmEmpty tZero =
      .error "no pod metrics provided" :=
  ⟨((C9_generateRecommendations_error_iff newRecommendationEngine (fun _ => 0)
        wmAllFail tZero).2.1 (by decide)).trans
      (congrArg Except.ok wmAllFail_loop_eval),
    (C9_generateRecommendations_error_iff newRecommendationEngine (fun _ => 0)
        wmEmpty tZero).1 rfl⟩

/-- C10: a configured percentile of 0 is indistinguishable from unset — the
analysis behaves exactly as with the default percentile 95 — and a safety
margin of 0 is indistinguishable from unset — the analysis behaves exactly as
with the engine's default margin, which is 20 for the stock engine. -/
theorem C10_zero_thresholds_default (r : RecommendationEngine) (sqrt : ℚ → ℚ)
    (hist : List ℚ) (t : ResourceThresholds) :
    (analyzeCPUUsage r sqrt hist { t with cpuUtilizationPercentile := 0 } =
      analyzeCPUUsage r sqrt hist { t with cpuUtilizationPercentile := 95 }) ∧
    (analyzeMemoryUsage r sqrt hist { t with memoryUtilizationPercentile := 0 } =
      analyzeMemoryUsage r sqrt hist { t with memoryUtilizationPercentile := 95 }) ∧
    (analyzeCPUUsage r sqrt hist { t with safetyMargin := 0 } =
      analyzeCPUUsage r sqrt hist { t with safetyMargin := r.defaultSafetyMargin }) ∧
    (analyzeMemoryUsage r sqrt hist { t with safetyMargin := 0 } =
      analyzeMemoryUsage r sqrt hist { t with safetyMargin := r.defaultSafetyMargin }) ∧
    newRecommendationEngine.defaultSafetyMargin = 20 := by
  refine ⟨?_, ?_, ?_, ?_, rfl⟩
  · simp [analyzeCPUUsage]
  · simp [analyzeMemoryUsage]
  · simp [analyzeCPUUsage]
  · simp [analyzeMemoryUsage]

/-- Five CPU samples — below the default 10-point minimum. -/
def cpu5 : List ℚ := [1, 1, 1, 1, 1]

/-- Fifteen memory samples — enough for the memory analysis on its own. -/
def mem15 : List ℚ :=
  [1000, 1000, 1000, 1000, 1000, 1000, 1000, 1000, 1000, 1000, 1000, 1000, 1000,
   1000, 1000]

/-- A pod whose CPU series is too short but whose memory series is ample. -/
def pmMixed : PodMetrics :=
  { podName := "web-1", ns := "default",
    cpuUsageHistory := cpu5, memUsageHistory := mem15 }

/-- The workload containing only `pmMixed`. -/
def wmMixed : WorkloadMetrics :=
  { workloadName := "web", workloadType := "Deployment", ns := "default",
    pods := [pmMixed] }

/-- C3 (counterexample): a pod with 5 CPU samples and 15 memory samples.  The
CPU analysis fails on insufficient data, the memory analysis on its own
succeeds, yet the workload yields no recommendation at all — the memory
resource of the same pod is also suppressed, so the insufficient-data failure
does not affect "only that resource". -/
theorem C3_counterexample :
    analyzeCPUUsage newRecommendationEngine (fun _ => 0) cpu5 tZero =
      .error "insufficient CPU data points: 5 < 10" ∧
    (analyzeMemoryUsage newRecommendationEngine (fun _ => 0) mem15 tZero).isOk = true ∧
    GenerateRecommendations newRecommendationEngine (fun _ => 0) wmMixed tZero =
      .ok [] :=
  ⟨rfl, rfl, rfl⟩

/-- C3 (amended): a usage series with fewer than the engine's minimum number
of samples makes the per-resource analysis fail with the explicit
insufficient-data error; the per-pod recommendation then fails as a whole
(with that same error when the short series is the CPU one), and the
workload loop skips exactly that pod, leaving other pods unaffected. -/
theorem C3_insufficient_data_behavior (r : RecommendationEngine) (sqrt : ℚ → ℚ)
    (thresholds : ResourceThresholds) :
    (∀ hist : List ℚ, (hist.length : ℤ) < r.minDataPoints →
      analyzeCPUUsage r sqrt hist thresholds =
        .error ("insufficient CPU data points: " ++ toString hist.length ++
          " < " ++ toString r.minDataPoints) ∧
      analyzeMemoryUsage r sqrt hist thresholds =
        .error ("insufficient memory data points: " ++ toString hist.length ++
          " < " ++ toString r.minDataPoints)) ∧
    (∀ podMetrics : PodMetrics,
      (podMetrics.cpuUsageHistory.length : ℤ) < r.minDataPoints →
      generatePodRecommendation r sqrt podMetrics thresholds =
        .error ("insufficient CPU data points: " ++
          toString podMetrics.cpuUsageHistory.length ++ " < " ++
          toString r.minDataPoints)) ∧
    (∀ (podMetrics : PodMetrics) (rest : List PodMetrics)
        (acc : List PodRecommendation) (e : String),
      generatePodRecommendation r sqrt podMetrics thresholds = .error e →
      generateRecommendationsLoop r sqrt thresholds (podMetrics :: rest) acc =
        generateRecommendationsLoop r sqrt thresholds rest acc) := by
  have hfail : ∀ hist : List ℚ, (hist.length : ℤ) < r.minDataPoints →
      analyzeCPUUsage r sqrt hist thresholds =
        .error ("insufficient CPU data points: " ++ toString hist.length ++
          " < " ++ toString r.minDataPoints) := by
    intro hist h
    unfold analyzeCPUUsage
    rw [if_pos h]
  refine ⟨fun hist h => ⟨hfail hist h, ?_⟩, fun podMetrics h => ?_,
    fun podMetrics rest acc e he => ?_⟩
  · unfold analyzeMemoryUsage
    rw [if_pos h]
  · conv_lhs => rw [generatePodRecommendation, hfail podMetrics.cpuUsageHistory h]
  · conv_lhs => rw [generateRecommendationsLoop, he]

theorem C3_witness :
    analyzeCPUUsage newRecommendationEngine (fun _ => 0) cpu5 tZero =
      .error ("insufficient CPU data points: " ++ toString cpu5.length ++ " < " ++
        toString newRecommendationEngine.minDataPoints) ∧
    generatePodRecommendation newRecommendationEngine (fun _ => 0) pmMixed tZero =
      .error ("insufficient CPU data points: " ++
        toString pmMixed.cpuUsageHistory.length ++ " < " ++
        toString newRecommendationEngine.minDataPoints) ∧
    generateRecommendationsLoop newRecommendationEngine (fun _ => 0) tZero
        [pmMixed] [] =
      generateRecommendationsLoop newRecommendationEngine (fun _ => 0) tZero [] [] :=
  ⟨((C3_insufficient_data_behavior newRecommendationEngine (fun _ => 0) tZero).1
      cpu5 (by decide)).1,
    (C3_insufficient_data_behavior newRecommendationEngine (fun _ => 0) tZero).2.1
      pmMixed (by decide),
    (C3_insufficient_data_behavior newRecommendationEngine (fun _ => 0) tZero).2.2
      pmMixed [] [] _
      ((C3_insufficient_data_behavior newRecommendationEngine (fun _ => 0) tZero).2.1
        pmMixed (by decide))⟩

theorem generatePodRecommendation_eq (r : RecommendationEngine) (sqrt : ℚ → ℚ)
    (podMetrics : PodMetrics) (thresholds : ResourceThresholds)
    (cpuRec memRec : ResourceRecommendation) (cpuConfidence memConfidence : ℤ)
    (hc : analyzeCPUUsage r sqrt podMetrics.cpuUsageHistory thresholds =
      .ok (cpuRec, cpuConfidence))
    (hm : analyzeMemoryUsage r sqrt podMetrics.memUsageHistory thresholds =
      .ok (memRec, memConfidence)) :
    generatePodRecommendation r sqrt podMetrics thresholds =
      if min cpuConfidence memConfidence < r.defaultConfidenceThreshold then
        .ok none
      else
        .ok (some
          { name := podMetrics.podName
            ns := podMetrics.ns
            workloadType := ""
            workloadName := ""
            currentResources := ⟨[], []⟩
            cpuLimitMillis := some cpuRec.limit
            cpuRequestMillis :=
              some (trunc ((cpuRec.limit : ℚ) / 1000 * r.cpuRequestMultiplier * 1000))
            memLimitBytes := some memRec.limit
            memRequestBytes := some (trunc ((memRec.limit : ℚ) * r.memoryRequestMultiplier))
            confidence := min cpuConfidence memConfidence
            reason := buildReasonString r cpuRec memRec thresholds
            applied := false }) := by
  conv_lhs => rw [generatePodRecommendation, hc, hm]

/-- C4: the pod-level confidence is `min` of the CPU and memory confidences;
whenever it is below the engine's confidence threshold the per-pod result is
`.ok none` — no recommendation, and no error — and the workload loop skips
such a pod silently; every emitted recommendation carries the min-confidence
and passed the gate. -/
theorem C4_confidence_gate (r : RecommendationEngine) (sqrt : ℚ → ℚ)
    (podMetrics : PodMetrics) (thresholds : ResourceThresholds)
    (cpuRec memRec : ResourceRecommendation) (cpuConfidence memConfidence : ℤ)
    (hc : analyzeCPUUsage r sqrt podMetrics.cpuUsageHistory thresholds =
      .ok (cpuRec, cpuConfidence))
    (hm : analyzeMemoryUsage r sqrt podMetrics.memUsageHistory thresholds =
      .ok (memRec, memConfidence)) :
    (min cpuConfidence memConfidence < r.defaultConfidenceThreshold →
      generatePodRecommendation r sqrt podMetrics thresholds = .ok none) ∧
    (∀ rec : PodRecommendation,
      generatePodRecommendation r sqrt podMetrics thresholds = .ok (some rec) →
      rec.confidence = min cpuConfidence memConfidence ∧
      r.defaultConfidenceThreshold ≤ min cpuConfidence memConfidence) ∧
    (∀ (rest : List PodMetrics) (acc : List PodRecommendation),
      generatePodRecommendation r sqrt podMetrics thresholds = .ok none →
      generateRecommendationsLoop r sqrt thresholds (podMetrics :: rest) acc =
        generateRecommendationsLoop r sqrt thresholds rest acc) := by
  have hgen := generatePodRecommendation_eq r sqrt podMetrics thresholds
    cpuRec memRec cpuConfidence memConfidence hc hm
  refine ⟨fun hlt => ?_, fun rec hrec => ?_, fun rest acc hnone => ?_⟩
  · rw [hgen, if_pos hlt]
  · rw [hgen] at hrec
    by_cases hlt : min cpuConfidence memConfidence < r.defaultConfidenceThreshold
    · rw [if_pos hlt] at hrec
      exact absurd hrec (by simp)
    · rw [if_neg hlt] at hrec
      have hrec2 : some _ = some rec := Except.ok.inj hrec
      have hrec3 := Option.some.inj hrec2
      subst hrec3
      exact ⟨rfl, le_of_not_lt hlt⟩
  · conv_lhs => rw [generateRecommendationsLoop, hnone]

/-- Ten identical CPU samples of one core. -/
def ones10 : List ℚ := [1, 1, 1, 1, 1, 1, 1, 1, 1, 1]

/-- Ten identical memory samples of 1000 bytes. -/
def thousands10 : List ℚ :=
  [1000, 1000, 1000, 1000, 1000, 1000, 1000, 1000, 1000, 1000]

/-- A square-root model returning 10 everywhere; on the all-ones sample it
makes the coefficient of variation 10, far above the 0.5 band. -/
def sqrtTen : ℚ → ℚ := fun _ => 10

/-- A pod whose samples yield confidence 33 for both resources under
`sqrtTen`. -/
def pmNoisy : PodMetrics :=
  { podName := "db-1", ns := "default",
    cpuUsageHistory := ones10, memUsageHistory := ones10 }

theorem analyzeCPU_ones10_sqrtTen :
    analyzeCPUUsage newRecommendationEngine sqrtTen ones10 tZero =
      .ok ({ limit := 1200, percentile := 1, confidence := 33, dataPoints := 10,
             reason := "Based on 95th percentile of 10 data points" }, 33) := by
  norm_num [analyzeCPUUsage, newRecommendationEngine, tZero, ones10, sqrtTen,
    calculatePercentile, calculateConfidence, calculateMean,
    calculateStandardDeviation, trunc, ceil_eq_neg_floor,
    List.insertionSort, List.orderedInsert, min_def]
  try simp
  try norm_num
  try rfl

theorem analyzeMem_ones10_sqrtTen :
    analyzeMemoryUsage newRecommendationEngine sqrtTen ones10 tZero =
      .ok ({ limit := 1, percentile := 1, confidence := 33, dataPoints := 10,
             reason := "Based on 95th percentile of 10 data points" }, 33) := by
  norm_num [analyzeMemoryUsage, newRecommendationEngine, tZero, ones10, sqrtTen,
    calculatePercentile, calculateConfidence, calculateMean,
    calculateStandardDeviation, trunc, ceil_eq_neg_floor,
    List.insertionSort, List.orderedInsert, min_def]
  try simp
  try norm_num
  try rfl

theorem C4_witness :
    generatePodRecommendation newRecommendationEngine sqrtTen pmNoisy tZero =
      .ok none :=
  (C4_confidence_gate newRecommendationEngine sqrtTen pmNoisy tZero _ _ 33 33
    analyzeCPU_ones10_sqrtTen analyzeMem_ones10_sqrtTen).1 (by decide)

theorem insertionSort_nonneg (hist : List ℚ) (hvals : ∀ x ∈ hist, 0 ≤ x) :
    ∀ x ∈ List.insertionSort (· ≤ ·) hist, 0 ≤ x := by
  intro x hx
  exact hvals x ((List.perm_insertionSort (· ≤ ·) hist).mem_iff.mp hx)

theorem analyzeCPUUsage_limit_nonneg (r : RecommendationEngine) (sqrt : ℚ → ℚ)
    (hist : List ℚ) (t : ResourceThresholds) (rec : ResourceRecommendation)
    (conf : ℤ) (hvals : ∀ x ∈ hist, 0 ≤ x) (hmargin : 0 ≤ r.defaultSafetyMargin)
    (hmax : ∀ m, t.maxCPU = some m → 0 ≤ m)
    (h : analyzeCPUUsage r sqrt hist t = .ok (rec, conf)) :
    0 ≤ rec.limit := by
  unfold analyzeCPUUsage at h
  split at h
  · exact absurd h (by simp)
  · simp only [] at h
    have hlim := congrArg (fun p : ResourceRecommendation × ℤ => p.1.limit)
      (Except.ok.inj h)
    simp only [] at hlim
    rw [← hlim]
    apply trunc_nonneg
    apply mul_nonneg _ (by norm_num)
    have hpv : 0 ≤ calculatePercentile (List.insertionSort (· ≤ ·) hist)
        ((if 0 < t.cpuUtilizationPercentile then t.cpuUtilizationPercentile else 95 : ℤ) : ℚ) :=
      calculatePercentile_nonneg _ _ (insertionSort_nonneg hist hvals)
    have hsm : (0 : ℤ) ≤
        if 0 < t.safetyMargin then t.safetyMargin else r.defaultSafetyMargin := by
      split
      · omega
      · exact hmargin
    set pv : ℚ := calculatePercentile (List.insertionSort (· ≤ ·) hist)
      ((if 0 < t.cpuUtilizationPercentile then t.cpuUtilizationPercentile else 95 : ℤ) : ℚ)
      with hpvd
    set smq : ℤ := if 0 < t.safetyMargin then t.safetyMargin else r.defaultSafetyMargin
      with hsmd
    have hsmq : (0 : ℚ) ≤ (smq : ℚ) := by exact_mod_cast hsm
    have hrl0 : 0 ≤ pv * (1 + (smq : ℚ) / 100) := by
      apply mul_nonneg hpv
      have : (0 : ℚ) ≤ (smq : ℚ) / 100 := by positivity
      linarith
    set rl0 : ℚ := pv * (1 + (smq : ℚ) / 100) with hrl0d
    have hrl1 : 0 ≤ (match t.minCPU with
        | some minCPU => if rl0 < minCPU then minCPU else rl0
        | none => rl0) := by
      cases t.minCPU with
      | none => exact hrl0
      | some mn =>
        dsimp only
        split
        · next hcond => exact le_of_lt (lt_of_le_of_lt hrl0 hcond)
        · exact hrl0
    cases hmx : t.maxCPU with
    | none => exact hrl1
    | some m =>
      dsimp only
      split
      · exact hmax m hmx
      · exact hrl1

theorem analyzeMemoryUsage_limit_nonneg (r : RecommendationEngine) (sqrt : ℚ → ℚ)
    (hist : List ℚ) (t : ResourceThresholds) (rec : ResourceRecommendation)
    (conf : ℤ) (hvals : ∀ x ∈ hist, 0 ≤ x) (hmargin : 0 ≤ r.defaultSafetyMargin)
    (hmax : ∀ m, t.maxMemory = some m → 0 ≤ m)
    (h : analyzeMemoryUsage r sqrt hist t = .ok (rec, conf)) :
    0 ≤ rec.limit := by
  unfold analyzeMemoryUsage at h
  split at h
  · exact absurd h (by simp)
  · simp only [] at h
    have hlim := congrArg (fun p : ResourceRecommendation × ℤ => p.1.limit)
      (Except.ok.inj h)
    simp only [] at hlim
    rw [← hlim]
    apply trunc_nonneg
    have hpv : 0 ≤ calculatePercentile (List.insertionSort (· ≤ ·) hist)
        ((if 0 < t.memoryUtilizationPercentile then t.memoryUtilizationPercentile else 95 : ℤ) : ℚ) :=
      calculatePercentile_nonneg _ _ (insertionSort_nonneg hist hvals)
    have hsm : (0 : ℤ) ≤
        if 0 < t.safetyMargin then t.safetyMargin else r.defaultSafetyMargin := by
      split
      · omega
      · exact hmargin
    set pv : ℚ := calculatePercentile (List.insertionSort (· ≤ ·) hist)
      ((if 0 < t.memoryUtilizationPercentile then t.memoryUtilizationPercentile else 95 : ℤ) : ℚ)
      with hpvd
    set smq : ℤ := if 0 < t.safetyMargin then t.safetyMargin else r.defaultSafetyMargin
      with hsmd
    have hsmq : (0 : ℚ) ≤ (smq : ℚ) := by exact_mod_cast hsm
    have hrl0 : 0 ≤ pv * (1 + (smq : ℚ) / 100) := by
      apply mul_nonneg hpv
      have : (0 : ℚ) ≤ (smq : ℚ) / 100 := by positivity
      linarith
    set rl0 : ℚ := pv * (1 + (smq : ℚ) / 100) with hrl0d
    have hrl1 : 0 ≤ (match t.minMemory with
        | some minMemory => if rl0 < minMemory then minMemory else rl0
        | none => rl0) := by
      cases t.minMemory with
      | none => exact hrl0
      | some mn =>
        dsimp only
        split
        · next hcond => exact le_of_lt (lt_of_le_of_lt hrl0 hcond)
        · exact hrl0
    cases hmx : t.maxMemory with
    | none => exact hrl1
    | some m =>
      dsimp only
      split
      · exact hmax m hmx
      · exact hrl1

/-- C2: every recommendation emitted by `generatePodRecommendation` (with the
stock engine, nonnegative usage samples and nonnegative configured maxima)
has CPU request = CPU limit × 0.8 quantized to whole milli-cores, memory
request = memory limit × 0.9 quantized to whole bytes, and consequently
request ≤ limit for both resources. -/
theorem C2_request_le_limit (sqrt : ℚ → ℚ) (podMetrics : PodMetrics)
    (thresholds : ResourceThresholds) (rec : PodRecommendation)
    (hcpuVals : ∀ x ∈ podMetrics.cpuUsageHistory, 0 ≤ x)
    (hmemVals : ∀ x ∈ podMetrics.memUsageHistory, 0 ≤ x)
    (hmaxCPU : ∀ m, thresholds.maxCPU = some m → 0 ≤ m)
    (hmaxMem : ∀ m, thresholds.maxMemory = some m → 0 ≤ m)
    (h : generatePodRecommendation newRecommendationEngine sqrt podMetrics
      thresholds = .ok (some rec)) :
    rec.cpuRequestMillis = some (trunc ((rec.cpuLimitMillis.getD 0 : ℚ) * (8 / 10))) ∧
    rec.memRequestBytes = some (trunc ((rec.memLimitBytes.getD 0 : ℚ) * (9 / 10))) ∧
    trunc ((rec.cpuLimitMillis.getD 0 : ℚ) * (8 / 10)) ≤ rec.cpuLimitMillis.getD 0 ∧
    trunc ((rec.memLimitBytes.getD 0 : ℚ) * (9 / 10)) ≤ rec.memLimitBytes.getD 0 := by
  have hmargin : (0 : ℤ) ≤ newRecommendationEngine.defaultSafetyMargin := by
    norm_num [newRecommendationEngine]
  cases hcE : analyzeCPUUsage newRecommendationEngine sqrt
      podMetrics.cpuUsageHistory thresholds with
  | error e =>
    unfold generatePodRecommendation at h
    rw [hcE] at h
    exact absurd h (by simp)
  | ok cpuPair =>
    cases hmE : analyzeMemoryUsage newRecommendationEngine sqrt
        podMetrics.memUsageHistory thresholds with
    | error e =>
      unfold generatePodRecommendation at h
      rw [hcE, hmE] at h
      exact absurd h (by simp)
    | ok memPair =>
      obtain ⟨cpuRec, cpuConf⟩ := cpuPair
      obtain ⟨memRec, memConf⟩ := memPair
      rw [generatePodRecommendation_eq newRecommendationEngine sqrt podMetrics
        thresholds cpuRec memRec cpuConf memConf hcE hmE] at h
      split at h
      · exact absurd h (by simp)
      · have h2 := Option.some.inj (Except.ok.inj h)
        subst h2
        have hcl : 0 ≤ cpuRec.limit :=
          analyzeCPUUsage_limit_nonneg _ _ _ _ _ _ hcpuVals hmargin hmaxCPU hcE
        have hml : 0 ≤ memRec.limit :=
          analyzeMemoryUsage_limit_nonneg _ _ _ _ _ _ hmemVals hmargin hmaxMem hmE
        have hclq : (0 : ℚ) ≤ (cpuRec.limit : ℚ) := by exact_mod_cast hcl
        have hmlq : (0 : ℚ) ≤ (memRec.limit : ℚ) := by exact_mod_cast hml
        refine ⟨?_, ?_, ?_, ?_⟩
        · dsimp only [Option.getD_some]
          congr 1
          apply congrArg trunc
          norm_num [newRecommendationEngine]
          ring
        · dsimp only [Option.getD_some]
          congr 1
        · dsimp only [Option.getD_some]
          apply trunc_le_intCast
          linarith
        · dsimp only [Option.getD_some]
          apply trunc_le_intCast
          linarith

/-- A square-root model returning 0 everywhere; exact for the all-identical
samples used below (variance 0). -/
def sqrtZero : ℚ → ℚ := fun _ => 0

/-- A pod with ten identical CPU samples (1 core) and ten identical memory
samples (1000 bytes): zero variance, confidence 100. -/
def pmGood : PodMetrics :=
  { podName := "web-1", ns := "default",
    cpuUsageHistory := ones10, memUsageHistory := thousands10 }

theorem ones10_nonneg : ∀ x ∈ ones10, (0 : ℚ) ≤ x := by
  norm_num [ones10]

theorem thousands10_nonneg : ∀ x ∈ thousands10, (0 : ℚ) ≤ x := by
  norm_num [thousands10]

theorem analyzeCPU_ones10_sqrtZero :
    analyzeCPUUsage newRecommendationEngine sqrtZero ones10 tZero =
      .ok ({ limit := 1200, percentile := 1, confidence := 100, dataPoints := 10,
             reason := "Based on 95th percentile of 10 data points" }, 100) := by
  norm_num [analyzeCPUUsage, newRecommendationEngine, tZero, ones10, sqrtZero,
    calculatePercentile, calculateConfidence, calculateMean,
    calculateStandardDeviation, trunc, ceil_eq_neg_floor,
    List.insertionSort, List.orderedInsert, min_def]
  try simp
  try norm_num
  try rfl

theorem analyzeMem_thousands10_sqrtZero :
    analyzeMemoryUsage newRecommendationEngine sqrtZero thousands10 tZero =
      .ok ({ limit := 1200, percentile := 1000, confidence := 100, dataPoints := 10,
             reason := "Based on 95th percentile of 10 data points" }, 100) := by
  norm_num [analyzeMemoryUsage, newRecommendationEngine, tZero, thousands10, sqrtZero,
    calculatePercentile, calculateConfidence, calculateMean,
    calculateStandardDeviation, trunc, ceil_eq_neg_floor,
    List.insertionSort, List.orderedInsert, min_def]
  try simp
  try norm_num
  try rfl

/-- The recommendation `generatePodRecommendation` emits for `pmGood`. -/
def recGood : PodRecommendation :=
  { name := "web-1", ns := "default", workloadType := "", workloadName := "",
    currentResources := ⟨[], []⟩,
    cpuLimitMillis := some 1200, cpuRequestMillis := some 960,
    memLimitBytes := some 1200, memRequestBytes := some 1080,
    confidence := 100,
    reason := "Recommendations based on historical usage analysis. " ++
      "CPU: Based on 95th percentile of 10 data points. " ++
      "Memory: Based on 95th percentile of 10 data points. " ++
      "Applied 20% safety margin.",
    applied := false }

theorem genGood_eval :
    generatePodRecommendation newRecommendationEngine sqrtZero pmGood tZero =
      .ok (some recGood) := by
  rw [generatePodRecommendation_eq newRecommendationEngine sqrtZero pmGood tZero
    _ _ 100 100 analyzeCPU_ones10_sqrtZero analyzeMem_thousands10_sqrtZero]
  norm_num [recGood, newRecommendationEngine, trunc, buildReasonString, tZero,
    ceil_eq_neg_floor]
  exact ⟨rfl, rfl, rfl⟩

theorem C2_witness :
    recGood.cpuRequestMillis =
      some (trunc ((recGood.cpuLimitMillis.getD 0 : ℚ) * (8 / 10))) ∧
    recGood.memRequestBytes =
      some (trunc ((recGood.memLimitBytes.getD 0 : ℚ) * (9 / 10))) ∧
    trunc ((recGood.cpuLimitMillis.getD 0 : ℚ) * (8 / 10)) ≤
      recGood.cpuLimitMillis.getD 0 ∧
    trunc ((recGood.memLimitBytes.getD 0 : ℚ) * (9 / 10)) ≤
      recGood.memLimitBytes.getD 0 :=
  C2_request_le_limit sqrtZero pmGood tZero recGood
    ones10_nonneg thousands10_nonneg
    (fun m hm => Option.noConfusion hm) (fun m hm => Option.noConfusion hm)
    genGood_eval

/-- A target selecting the "default" namespace with no selectors and no
exclusions. -/
def targetDefault : TargetSpec :=
  { ns := "default", namespaceSelector := none, labelSelector := none,
    excludeNamespaces := [], includeWorkloadTypes := [] }

/-- A freshly-created configuration object in its zero state. -/
def prsZero : PodRightSizing :=
  { spec := { target := targetDefault, analysisWindow := none, dryRun := true,
              thresholds := tZero },
    status := { phase := .initializing, message := "", lastAnalysisTimeSet := false,
                lastUpdateTimeSet := false, targetedPods := 0, updatedPods := 0,
                recommendations := [] } }

/-- C8 (counterexample): give the status-write API a trace whose first
attempt conflicts and whose second attempt would succeed.  `updatePhase`
returns the conflict as an error and leaves the would-be-successful second
outcome unconsumed: the write is not retried (and the object is not
refetched), contradicting the claimed refetch-and-retry resolution. -/
theorem C8_counterexample :
    (updatePhase [WriteOutcome.conflict, WriteOutcome.ok] prsZero .analyzing
        "Starting resource analysis").2.1 =
      .error "Operation cannot be fulfilled: the object has been modified" ∧
    (updatePhase [WriteOutcome.conflict, WriteOutcome.ok] prsZero .analyzing
        "Starting resource analysis").2.2 = [WriteOutcome.ok] :=
  ⟨rfl, rfl⟩

/-- C8 (amended): `updatePhase` issues exactly one status write per call
(consuming exactly one outcome of the write trace); a conflicting write is
surfaced verbatim as the function's error — so it is never silently dropped,
the reconcile pass aborts and the runtime re-runs it — but `updatePhase`
itself performs no refetch and no in-place retry. -/
theorem C8_single_write_no_retry (api : List WriteOutcome) (prs : PodRightSizing)
    (phase : RightSizingPhase) (message : String) :
    (updatePhase api prs phase message).2.2 = api.tail ∧
    (∀ rest, api = WriteOutcome.conflict :: rest →
      (updatePhase api prs phase message).2.1 =
        .error "Operation cannot be fulfilled: the object has been modified" ∧
      (updatePhase api prs phase message).2.2 = rest) ∧
    (updatePhase api prs phase message).1.status.phase = phase ∧
    (updatePhase api prs phase message).1.status.message = message := by
  rcases api with _ | ⟨o, rest⟩
  · refine ⟨rfl, ?_, rfl, rfl⟩
    intro rest2 h
    exact absurd h (by simp)
  · cases o
    · refine ⟨rfl, ?_, rfl, rfl⟩
      intro rest2 h
      exact absurd h (by simp)
    · refine ⟨rfl, ?_, rfl, rfl⟩
      intro rest2 h
      obtain ⟨-, h2⟩ := List.cons.inj h
      subst h2
      exact ⟨rfl, rfl⟩

theorem C8_witness :
    (updatePhase [WriteOutcome.conflict] prsZero .completed "done").2.1 =
      .error "Operation cannot be fulfilled: the object has been modified" ∧
    (updatePhase [WriteOutcome.conflict] prsZero .completed "done").2.2 = [] :=
  (C8_single_write_no_retry [WriteOutcome.conflict] prsZero .completed
    "done").2.1 [] rfl

theorem foldl_append_eq_flatten {α β : Type} (f : β → List α) :
    ∀ (l : List β) (init : List α),
      l.foldl (fun acc b => acc ++ f b) init = init ++ (l.map f).flatten
  | [], init => by simp
  | b :: l, init => by
    simp only [List.foldl_cons, List.map_cons, List.flatten_cons]
    rw [foldl_append_eq_flatten f l (init ++ f b)]
    simp [List.append_assoc]

theorem mem_discoverTargetPods (c : Cluster) (prs : PodRightSizing) (pod : Pod) :
    pod ∈ discoverTargetPods c prs ↔
      ∃ ns ∈ resolvedNamespaces c prs,
        pod ∈ listPodsInNamespace c prs
          (prs.spec.target.labelSelector.getD (fun _ => true)) ns := by
  unfold discoverTargetPods
  rw [foldl_append_eq_flatten]
  simp [List.mem_flatten]

theorem listPodsInNamespace_not_excluded (c : Cluster) (prs : PodRightSizing)
    (selector : List (String × String) → Bool) (ns : String) (pod : Pod)
    (hns : ns ≠ "") (h : pod ∈ listPodsInNamespace c prs selector ns) :
    pod.ns ∉ prs.spec.target.excludeNamespaces := by
  unfold listPodsInNamespace at h
  split at h
  · simp at h
  · next hexc =>
    obtain ⟨h1, h2⟩ := List.mem_filter.mp h
    obtain ⟨h3, h4⟩ := List.mem_filter.mp h1
    rw [Bool.and_eq_true, Bool.or_eq_true] at h4
    have hpodns : pod.ns = ns := by
      rcases h4.2 with h5 | h5
      · exact absurd (beq_iff_eq.mp h5) hns
      · exact beq_iff_eq.mp h5
    intro hmem
    apply hexc
    unfold isNamespaceExcluded
    rw [List.any_eq_true]
    refine ⟨pod.ns, hmem, ?_⟩
    rw [hpodns]
    exact beq_self_eq_true ns

/-- C7 (amended): pod discovery never includes a pod from an excluded
namespace in the two explicit targeting modes — exact `Namespace`, and
`NamespaceSelector` (provided, as in a real cluster, no namespace object is
named ""). In the all-namespaces mode (neither set) the code lists pods
through the single catch-all namespace "" and only checks *that* sentinel
against `ExcludeNamespaces`, so the exclusion list does not restrict the
discovered pods (see the counterexample). -/
theorem C7_exclude_namespaces_scoped (c : Cluster) (prs : PodRightSizing)
    (pod : Pod) :
    (prs.spec.target.namespaceSelector = none → prs.spec.target.ns ≠ "" →
      pod ∈ discoverTargetPods c prs →
      pod.ns ∉ prs.spec.target.excludeNamespaces) ∧
    (∀ f, prs.spec.target.namespaceSelector = some f →
      (∀ n ∈ c.namespaces, n.name ≠ "") →
      pod ∈ discoverTargetPods c prs →
      pod.ns ∉ prs.spec.target.excludeNamespaces) := by
  constructor
  · intro hsel hexact hmem
    obtain ⟨ns, hns, hpod⟩ := (mem_discoverTargetPods c prs pod).mp hmem
    unfold resolvedNamespaces at hns
    rw [hsel] at hns
    have hneq : (prs.spec.target.ns != "") = true := by
      simpa using hexact
    rw [if_pos hneq] at hns
    have hns2 : ns = prs.spec.target.ns := by
      simpa using hns
    rw [hns2] at hpod
    exact listPodsInNamespace_not_excluded c prs _ _ pod hexact hpod
  · intro f hsel hnames hmem
    obtain ⟨ns, hns, hpod⟩ := (mem_discoverTargetPods c prs pod).mp hmem
    unfold resolvedNamespaces at hns
    rw [hsel] at hns
    simp only [List.mem_map] at hns
    obtain ⟨n, hn, hname⟩ := hns
    have hnm : n ∈ c.namespaces := (List.mem_filter.mp hn).1
    have hns0 : ns ≠ "" := by
      rw [← hname]
      exact hnames n hnm
    exact listPodsInNamespace_not_excluded c prs _ ns pod hns0 hpod

/-- A running DaemonSet pod living in the `kube-system` namespace. -/
def podKube : Pod :=
  { name := "kube-proxy-1", ns := "kube-system", labels := [], phase := "Running",
    ownerRefs := [{ kind := "DaemonSet", name := "kube-proxy" }],
    containers := [{ name := "proxy", requests := [("cpu", 1)], limits := [] }] }

/-- A configuration with no namespace and no namespace selector (the
all-namespaces mode) that excludes `kube-system`. -/
def prsAll : PodRightSizing :=
  { spec := { target := { ns := "", namespaceSelector := none, labelSelector := none,
                          excludeNamespaces := ["kube-system"],
                          includeWorkloadTypes := [] },
              analysisWindow := none, dryRun := true, thresholds := tZero },
    status := { phase := .initializing, message := "", lastAnalysisTimeSet := false,
                lastUpdateTimeSet := false, targetedPods := 0, updatedPods := 0,
                recommendations := [] } }

/-- The cluster containing only the excluded-namespace pod. -/
def cExcl : Cluster :=
  { namespaces := [{ name := "default", labels := [] },
                   { name := "kube-system", labels := [] }],
    pods := [podKube], replicaSets := [] }

/-- C7 (counterexample): in the all-namespaces targeting mode the discovered
pod set contains a pod whose namespace is listed in `ExcludeNamespaces` —
the exclusion check only sees the catch-all "" namespace token, never the
pods' own namespaces. -/
theorem C7_counterexample :
    podKube.ns ∈ prsAll.spec.target.excludeNamespaces ∧
    discoverTargetPods cExcl prsAll = [podKube] := by
  constructor
  · simp [podKube, prsAll]
  · simp [discoverTargetPods, resolvedNamespaces, cExcl, prsAll,
      listPodsInNamespace, isNamespaceExcluded, shouldIncludePod,
      podHasResources, getWorkloadType, getWorkloadTypeLoop, podKube]

/-- A running StatefulSet pod in the `default` namespace. -/
def podWeb : Pod :=
  { name := "web-1", ns := "default", labels := [("app", "web")], phase := "Running",
    ownerRefs := [{ kind := "StatefulSet", name := "web" }],
    containers := [{ name := "app", requests := [("cpu", 1)], limits := [] }] }

/-- A configuration targeting the exact namespace `default` and excluding
`kube-system`. -/
def prsProd : PodRightSizing :=
  { spec := { target := { ns := "default", namespaceSelector := none,
                          labelSelector := none,
                          excludeNamespaces := ["kube-system"],
                          includeWorkloadTypes := [] },
              analysisWindow := none, dryRun := true, thresholds := tZero },
    status := { phase := .initializing, message := "", lastAnalysisTimeSet := false,
                lastUpdateTimeSet := false, targetedPods := 0, updatedPods := 0,
                recommendations := [] } }

/-- The cluster for the exact-namespace discovery scenario. -/
def cW7 : Cluster :=
  { namespaces := [{ name := "default", labels := [] },
                   { name := "kube-system", labels := [] }],
    pods := [podWeb], replicaSets := [] }

theorem podWeb_mem : podWeb ∈ discoverTargetPods cW7 prsProd := by
  simp [discoverTargetPods, resolvedNamespaces, cW7, prsProd,
    listPodsInNamespace, isNamespaceExcluded, shouldIncludePod,
    podHasResources, getWorkloadType, getWorkloadTypeLoop, podWeb]

theorem C7_witness :
    podWeb.ns ∉ prsProd.spec.target.excludeNamespaces :=
  (C7_exclude_namespaces_scoped cW7 prsProd podWeb).1 rfl (by decide) podWeb_mem

theorem updatePhase_ok (rest : List WriteOutcome) (prs : PodRightSizing)
    (phase : RightSizingPhase) (message : String) :
    updatePhase (WriteOutcome.ok :: rest) prs phase message =
      ({ prs with status := { prs.status with phase := phase, message := message } },
        .ok (), rest) := rfl

theorem discoverTargetPods_congr (c : Cluster) (prs : PodRightSizing)
    (st : PodRightSizingStatus) :
    discoverTargetPods c { prs with status := st } = discoverTargetPods c prs := rfl

theorem generateWorkloadRecommendations_congr (eng : RecommendationEngine)
    (sqrt : ℚ → ℚ) (metricsClient : MetricsOracle) (prs : PodRightSizing)
    (st : PodRightSizingStatus) (workloadKey : WorkloadKey) (pods : List Pod) :
    generateWorkloadRecommendations eng sqrt metricsClient { prs with status := st }
        workloadKey pods =
      generateWorkloadRecommendations eng sqrt metricsClient prs workloadKey pods := rfl

theorem recommendLoop_eq_flatten (eng : RecommendationEngine) (sqrt : ℚ → ℚ)
    (metricsClient : MetricsOracle) (prs : PodRightSizing) :
    ∀ (groups : List (WorkloadKey × List Pod)) (acc : List PodRecommendation),
      groups.foldl (fun acc group =>
        match generateWorkloadRecommendations eng sqrt metricsClient prs
            group.1 group.2 with
        | .error _ => acc
        | .ok recs => acc ++ recs) acc =
      acc ++ (groups.map (workloadRecsOrEmpty eng sqrt metricsClient prs)).flatten
  | [], acc => by simp
  | g :: groups, acc => by
    simp only [List.foldl_cons, List.map_cons, List.flatten_cons]
    rw [recommendLoop_eq_flatten eng sqrt metricsClient prs groups]
    unfold workloadRecsOrEmpty
    cases h : generateWorkloadRecommendations eng sqrt metricsClient prs g.1 g.2 <;>
      simp [h, List.append_assoc]

theorem workloadRecsOrEmpty_congr (eng : RecommendationEngine) (sqrt : ℚ → ℚ)
    (metricsClient : MetricsOracle) (prs : PodRightSizing)
    (st : PodRightSizingStatus) :
    workloadRecsOrEmpty eng sqrt metricsClient { prs with status := st } =
      workloadRecsOrEmpty eng sqrt metricsClient prs := rfl

/-- C6: in a reconcile pass whose status writes succeed and whose discovery
finds at least one pod, per-workload metrics or engine failures are isolated:
the pass returns no error, ends in phase Completed, and persists exactly the
concatenation of the successful workload groups' recommendations (failed
groups contribute nothing). -/
theorem C6_per_workload_isolation (c : Cluster) (eng : RecommendationEngine)
    (sqrt : ℚ → ℚ) (metricsClient : MetricsOracle)
    (applyRecs : List PodRecommendation → ℕ) (rest : List WriteOutcome)
    (prs : PodRightSizing)
    (hpods : (discoverTargetPods c prs).length ≠ 0) :
    (reconcilePass c eng sqrt metricsClient applyRecs
        (WriteOutcome.ok :: .ok :: .ok :: .ok :: rest) prs).2.1 = .ok () ∧
    (reconcilePass c eng sqrt metricsClient applyRecs
        (WriteOutcome.ok :: .ok :: .ok :: .ok :: rest) prs).1.status.phase =
      .completed ∧
    (reconcilePass c eng sqrt metricsClient applyRecs
        (WriteOutcome.ok :: .ok :: .ok :: .ok :: rest) prs).1.status.recommendations =
      ((groupPodsByWorkload c (discoverTargetPods c prs)).map
        (workloadRecsOrEmpty eng sqrt metricsClient prs)).flatten := by
  unfold reconcilePass
  rw [updatePhase_ok]
  dsimp only
  simp only [discoverTargetPods_congr]
  rw [if_neg hpods]
  rw [updatePhase_ok]
  dsimp only
  rw [recommendLoop_eq_flatten]
  simp only [workloadRecsOrEmpty_congr, List.nil_append]
  by_cases hdry : prs.spec.dryRun
  · simp [hdry, reconcileFinish, updatePhase_ok]
  · simp [hdry, reconcileFinish, updatePhase_ok]

/-- A running pod of StatefulSet "a". -/
def podA : Pod :=
  { name := "a-1", ns := "default", labels := [], phase := "Running",
    ownerRefs := [{ kind := "StatefulSet", name := "a" }],
    containers := [{ name := "app", requests := [("cpu", 1)], limits := [] }] }

/-- A running pod of StatefulSet "b". -/
def podB : Pod :=
  { name := "b-1", ns := "default", labels := [], phase := "Running",
    ownerRefs := [{ kind := "StatefulSet", name := "b" }],
    containers := [{ name := "app", requests := [("cpu", 1)], limits := [] }] }

/-- A cluster with two sibling workloads in the `default` namespace. -/
def cW6 : Cluster :=
  { namespaces := [{ name := "default", labels := [] }],
    pods := [podA, podB], replicaSets := [] }

/-- A dry-run configuration targeting the `default` namespace. -/
def prsW6 : PodRightSizing :=
  { spec := { target := targetDefault, analysisWindow := none, dryRun := true,
              thresholds := tZero },
    status := { phase := .initializing, message := "", lastAnalysisTimeSet := false,
                lastUpdateTimeSet := false, targetedPods := 0, updatedPods := 0,
                recommendations := [] } }

/-- The metrics the provider returns for workload "b". -/
def wmB : WorkloadMetrics :=
  { workloadName := "b", workloadType := "StatefulSet", ns := "default",
    pods := [pmGood] }

/-- A metrics provider whose call fails for workload "a" and succeeds for its
sibling "b". -/
def metricsW6 : MetricsOracle := fun _ workloadName _ _ =>
  if workloadName == "a" then .error "connection refused" else .ok wmB

theorem C6_witness :
    (reconcilePass cW6 newRecommendationEngine sqrtZero metricsW6 (fun _ => 0)
        (WriteOutcome.ok :: .ok :: .ok :: .ok :: []) prsW6).2.1 = .ok () ∧
    (reconcilePass cW6 newRecommendationEngine sqrtZero metricsW6 (fun _ => 0)
        (WriteOutcome.ok :: .ok :: .ok :: .ok :: []) prsW6).1.status.phase =
      .completed ∧
    (reconcilePass cW6 newRecommendationEngine sqrtZero metricsW6 (fun _ => 0)
        (WriteOutcome.ok :: .ok :: .ok :: .ok :: []) prsW6).1.status.recommendations =
      ((groupPodsByWorkload cW6 (discoverTargetPods cW6 prsW6)).map
        (workloadRecsOrEmpty newRecommendationEngine sqrtZero metricsW6
          prsW6)).flatten :=
  C6_per_workload_isolation cW6 newRecommendationEngine sqrtZero metricsW6
    (fun _ => 0) [] prsW6 (by decide)

theorem wmB_recommendations :
    GenerateRecommendations newRecommendationEngine sqrtZero wmB tZero =
      .ok [recGood] := by
  unfold GenerateRecommendations
  rw [if_neg (by decide)]
  simp [generateRecommendationsLoop, genGood_eval]

/-- Concrete form of the C6 scenario: with `metricsW6` failing for workload
"a" and succeeding for "b", the collected recommendations are exactly the
sibling workload's (enhanced with its workload identity). -/
theorem metricsW6_only_sibling :
    ((groupPodsByWorkload cW6 (discoverTargetPods cW6 prsW6)).map
      (workloadRecsOrEmpty newRecommendationEngine sqrtZero metricsW6
        prsW6)).flatten =
      [{ recGood with workloadType := "StatefulSet", workloadName := "b" }] := by
  have hgroups : groupPodsByWorkload cW6 (discoverTargetPods cW6 prsW6) =
      [(⟨"default", "StatefulSet", "a"⟩, [podA]), (⟨"default", "StatefulSet", "b"⟩, [podB])] := by
    simp [groupPodsByWorkload, discoverTargetPods, resolvedNamespaces, cW6, prsW6,
      targetDefault, listPodsInNamespace, isNamespaceExcluded, shouldIncludePod,
      podHasResources, getWorkloadType, getWorkloadTypeLoop, getWorkloadName,
      getWorkloadNameLoop, insertGrouped, podA, podB]
  rw [hgroups]
  simp only [List.map_cons, List.map_nil, List.flatten_cons, List.flatten_nil]
  have ha : workloadRecsOrEmpty newRecommendationEngine sqrtZero metricsW6 prsW6
      (⟨"default", "StatefulSet", "a"⟩, [podA]) = [] := by
    simp [workloadRecsOrEmpty, generateWorkloadRecommendations, metricsW6]
  have hb : workloadRecsOrEmpty newRecommendationEngine sqrtZero metricsW6 prsW6
      (⟨"default", "StatefulSet", "b"⟩, [podB]) =
      [{ recGood with workloadType := "StatefulSet", workloadName := "b" }] := by
    simp [workloadRecsOrEmpty, generateWorkloadRecommendations, metricsW6, prsW6,
      wmB_recommendations, podB, recGood, show wmB.pods.length = 1 from rfl]
  rw [ha, hb]
  simp
